import Mathlib

/-!
Verification of the WS repository's nl2sparql dispatch pipeline and RDF graph
builder.  Python strings are embedded as `List Char`; every definition mirrors
one function of the source (`src/querif/...`), with external services (LLM,
entity linking, SPARQL endpoint) modelled as explicit outcome parameters.
-/

/-- Python strings are modelled as lists of characters. -/
abbrev Str := List Char

/-- Coerce a Lean string literal to the `Str` model. -/
def chars (s : String) : Str := s.data

/-- Lookup in an association list, mirroring a Python dict read
(first matching key wins; Python dicts have unique keys). -/
def dictLookup {α β : Type} [DecidableEq α] : List (α × β) → α → Option β
  | [], _ => none
  | (k, v) :: rest, key => if k = key then some v else dictLookup rest key

/-! ### `src/querif/const/prefixes.py` -/

/-- Embeds the module-level `namespaces` dict, in its insertion order. -/
def namespaces : List (Str × Str) := [
  (chars "rdf", chars "http://www.w3.org/1999/02/22-rdf-syntax-ns#"),
  (chars "rdfs", chars "http://www.w3.org/2000/01/rdf-schema#"),
  (chars "owl", chars "http://www.w3.org/2002/07/owl#"),
  (chars "xsd", chars "http://www.w3.org/2001/XMLSchema#"),
  (chars "dbr", chars "http://dbpedia.org/resource/"),
  (chars "dbo", chars "http://dbpedia.org/ontology/"),
  (chars "dbp", chars "http://dbpedia.org/property/"),
  (chars "dbc", chars "http://dbpedia.org/resource/Category:"),
  (chars "dbt", chars "http://dbpedia.org/resource/Template:"),
  (chars "foaf", chars "http://xmlns.com/foaf/0.1/"),
  (chars "dc", chars "http://purl.org/dc/elements/1.1/"),
  (chars "dcterms", chars "http://purl.org/dc/terms/"),
  (chars "skos", chars "http://www.w3.org/2004/02/skos/core#"),
  (chars "geo", chars "http://www.w3.org/2003/01/geo/wgs84_pos#"),
  (chars "georss", chars "http://www.georss.org/georss/"),
  (chars "prov", chars "http://www.w3.org/ns/prov#"),
  (chars "wikidata", chars "http://www.wikidata.org/entity/"),
  (chars "schema", chars "http://schema.org/")]

/-- Embeds `namespaces_rev = {v: k for k, v in namespaces.items()}`.
All namespace URIs are distinct, so the comprehension keeps insertion order. -/
def namespacesRev : List (Str × Str) := namespaces.map (fun p => (p.2, p.1))

/-- The scan inside `uri_to_prefixed`: iterate `namespaces_rev.items()` in
order and rewrite the URI at the first `startswith` hit. -/
def nsScan : List (Str × Str) → Str → Str
  | [], uri => uri
  | (fullUri, px) :: rest, uri =>
    if fullUri.isPrefixOf uri then px ++ ':' :: uri.drop fullUri.length
    else nsScan rest uri

/-- Embeds `uri_to_prefixed` of `src/querif/const/prefixes.py`. -/
def uriToPrefixed (uri : Str) : Str := nsScan namespacesRev uri

/-- Python `s.split(c, 1)` when `c` occurs in `s`: `some (before, after)`
for the first occurrence, else `none` (the `c in s` test failing). -/
def splitFirst (c : Char) : Str → Option (Str × Str)
  | [] => none
  | x :: xs =>
    if x = c then some ([], xs)
    else
      match splitFirst c xs with
      | some (a, b) => some (x :: a, b)
      | none => none

/-- Embeds `prefixed_to_uri` of `src/querif/const/prefixes.py`. -/
def prefixedToUri (p : Str) : Str :=
  match splitFirst ':' p with
  | some (px, rest) =>
    match dictLookup namespaces px with
    | some full => full ++ rest
    | none => p
  | none => p

/-! Helper lemmas about the namespace scan. -/

theorem isPrefixOf_append_drop : ∀ (p u : Str), p.isPrefixOf u → p ++ u.drop p.length = u := by
  intro p
  induction p with
  | nil => intro u _; simp
  | cons a as ih =>
    intro u h
    cases u with
    | nil => simp [List.isPrefixOf] at h
    | cons b bs =>
      simp only [List.isPrefixOf, Bool.and_eq_true, beq_iff_eq] at h
      obtain ⟨hab, hpre⟩ := h
      simp [hab, ih bs hpre]

theorem splitFirst_append (p r : Str) (h : ':' ∉ p) :
    splitFirst ':' (p ++ ':' :: r) = some (p, r) := by
  induction p with
  | nil => simp [splitFirst]
  | cons x xs ih =>
    have hx : x ≠ ':' := fun he => h (he ▸ List.mem_cons_self x xs)
    have hxs : ':' ∉ xs := fun hm => h (List.mem_cons_of_mem x hm)
    simp [splitFirst, hx, ih hxs]

theorem roundtrip_branch (px full u : Str) (hnc : ':' ∉ px)
    (hlk : dictLookup namespaces px = some full) (hpre : full.isPrefixOf u) :
    prefixedToUri (px ++ ':' :: u.drop full.length) = u := by
  unfold prefixedToUri
  rw [splitFirst_append px _ hnc]
  simp only [hlk]
  exact isPrefixOf_append_drop full u hpre

theorem nsScan_roundtrip :
    ∀ (l : List (Str × Str)) (u : Str),
      (∀ pr ∈ l, (':' ∉ pr.2) ∧ dictLookup namespaces pr.2 = some pr.1) →
      (∃ pr ∈ l, pr.1.isPrefixOf u) →
      prefixedToUri (nsScan l u) = u := by
  intro l
  induction l with
  | nil =>
    rintro u _ ⟨pr, hm, _⟩
    exact absurd hm (List.not_mem_nil pr)
  | cons hd tl ih =>
    rintro u hgood ⟨pr, hm, hp⟩
    obtain ⟨full, px⟩ := hd
    by_cases hhd : full.isPrefixOf u
    · simp only [nsScan, hhd, if_true]
      have hg := hgood (full, px) (List.mem_cons_self _ _)
      exact roundtrip_branch px full u hg.1 hg.2 hhd
    · simp only [nsScan, hhd, if_false]
      apply ih u (fun q hq => hgood q (List.mem_cons_of_mem _ hq))
      rcases List.mem_cons.mp hm with heq | htl
      · rw [heq] at hp; exact absurd hp hhd
      · exact ⟨pr, htl, hp⟩

theorem nsScan_no_match :
    ∀ (l : List (Str × Str)) (u : Str),
      (∀ pr ∈ l, ¬ pr.1.isPrefixOf u) → nsScan l u = u := by
  intro l
  induction l with
  | nil => intro u _; rfl
  | cons hd tl ih =>
    intro u hno
    obtain ⟨full, px⟩ := hd
    have h1 : ¬ full.isPrefixOf u := by
      simpa using hno (full, px) (List.mem_cons_self _ _)
    simp only [nsScan, h1, if_false]
    exact ih u (fun q hq => hno q (List.mem_cons_of_mem _ hq))

theorem nsScan_first_match :
    ∀ (l : List (Str × Str)) (u full px : Str),
      l.find? (fun pr => pr.1.isPrefixOf u) = some (full, px) →
      nsScan l u = px ++ ':' :: u.drop full.length := by
  intro l
  induction l with
  | nil => intro u full px h; simp [List.find?] at h
  | cons hd tl ih =>
    intro u full px h
    obtain ⟨f, p⟩ := hd
    by_cases hf : f.isPrefixOf u
    · simp only [List.find?, hf] at h
      obtain ⟨h1, h2⟩ := Prod.mk.injEq .. ▸ Option.some.injEq .. ▸ h
      subst h1; subst h2
      simp [nsScan, hf]
    · simp only [List.find?, hf] at h
      simp only [nsScan, hf, if_false]
      exact ih u full px h

/-- C8: for every URI that starts with one of the namespace URIs of the table,
`prefixed_to_uri` inverts `uri_to_prefixed`; for every URI that starts with no
registered namespace URI, `uri_to_prefixed` returns its input unchanged. -/
theorem uriToPrefixed_prefixedToUri_roundtrip (u : Str) :
    ((∃ pr ∈ namespaces, (pr.2).isPrefixOf u) →
      prefixedToUri (uriToPrefixed u) = u) ∧
    ((∀ pr ∈ namespaces, ¬ (pr.2).isPrefixOf u) →
      uriToPrefixed u = u) := by
  constructor
  · rintro ⟨pr, hm, hp⟩
    unfold uriToPrefixed
    apply nsScan_roundtrip
    · decide
    · exact ⟨(pr.2, pr.1), List.mem_map.mpr ⟨pr, hm, rfl⟩, hp⟩
  · intro hall
    unfold uriToPrefixed
    apply nsScan_no_match
    intro q hq
    obtain ⟨pr, hm, heq⟩ := List.mem_map.mp hq
    rw [← heq]
    exact hall pr hm

/-- Witness for the round-trip law: a dbo URI round-trips, and a URI whose
namespace is not registered is returned unchanged. -/
theorem uriToPrefixed_prefixedToUri_roundtrip_witness :
    prefixedToUri (uriToPrefixed (chars "http://dbpedia.org/ontology/birthDate")) =
      chars "http://dbpedia.org/ontology/birthDate" ∧
    uriToPrefixed (chars "urn:example:thing") = chars "urn:example:thing" :=
  ⟨(uriToPrefixed_prefixedToUri_roundtrip (chars "http://dbpedia.org/ontology/birthDate")).1
      (by decide),
   (uriToPrefixed_prefixedToUri_roundtrip (chars "urn:example:thing")).2 (by decide)⟩

/-- C7 counterexample: the Category URI starts with both the dbr and the dbc
namespace URIs, yet `uri_to_prefixed` chooses dbr (the first entry in table
order, with the shorter namespace URI), not dbc (the longest match). -/
theorem uriToPrefixed_not_longest_match :
    (chars "http://dbpedia.org/resource/").isPrefixOf
      (chars "http://dbpedia.org/resource/Category:Foo") = true ∧
    (chars "http://dbpedia.org/resource/Category:").isPrefixOf
      (chars "http://dbpedia.org/resource/Category:Foo") = true ∧
    uriToPrefixed (chars "http://dbpedia.org/resource/Category:Foo") =
      chars "dbr:Category:Foo" ∧
    uriToPrefixed (chars "http://dbpedia.org/resource/Category:Foo") ≠
      chars "dbc:Foo" := by
  refine ⟨by decide, by decide, by decide, by decide⟩

/-- C7 amended: `uri_to_prefixed` rewrites the URI using the FIRST table entry
(in insertion order of `namespaces_rev`) whose namespace URI is a prefix of the
input, not the longest such entry. -/
theorem uriToPrefixed_first_match (u full px : Str)
    (h : namespacesRev.find? (fun pr => pr.1.isPrefixOf u) = some (full, px)) :
    uriToPrefixed u = px ++ ':' :: u.drop full.length := by
  unfold uriToPrefixed
  exact nsScan_first_match namespacesRev u full px h

/-- Witness: on the Category URI the first matching entry is dbr, so the
result keeps Category in the local name. -/
theorem uriToPrefixed_first_match_witness :
    uriToPrefixed (chars "http://dbpedia.org/resource/Category:Foo") =
      chars "dbr" ++ ':' ::
        (chars "http://dbpedia.org/resource/Category:Foo").drop
          (chars "http://dbpedia.org/resource/").length :=
  uriToPrefixed_first_match (chars "http://dbpedia.org/resource/Category:Foo")
    (chars "http://dbpedia.org/resource/") (chars "dbr") (by decide)

/-! ### Python string helpers shared by the embedded modules -/

/-- Python whitespace (`str.strip`, `str.split`, regex class): space, tab,
newline, carriage return, vertical tab, form feed. -/
def pyIsSpace (c : Char) : Bool :=
  c = ' ' || c = '\t' || c = '\n' || c = '\r' || c = Char.ofNat 11 || c = Char.ofNat 12

/-- Python `s.strip()`. -/
def pyStrip (s : Str) : Str :=
  ((s.dropWhile pyIsSpace).reverse.dropWhile pyIsSpace).reverse

/-- Worker for `splitWs`, with fuel bounded by the string length. -/
def splitWsAux : Nat → Str → List Str
  | 0, _ => []
  | fuel + 1, s =>
    match s.dropWhile pyIsSpace with
    | [] => []
    | c :: rest =>
      ((c :: rest).takeWhile (fun x => !pyIsSpace x)) ::
        splitWsAux fuel ((c :: rest).dropWhile (fun x => !pyIsSpace x))

/-- Python `s.split()` with no argument: split on whitespace runs, dropping
empty tokens. -/
def splitWs (s : Str) : List Str := splitWsAux s.length s

/-- Python `s.upper()` (ASCII suffices for the classifier replies). -/
def pyUpper (s : Str) : Str := s.map Char.toUpper

/-- Python `s.lower()`. -/
def pyLower (s : Str) : Str := s.map Char.toLower

/-- Python `needle in hay` for strings (substring containment). -/
def subInStr (needle : Str) : Str → Bool
  | [] => needle.isEmpty
  | c :: rest => needle.isPrefixOf (c :: rest) || subInStr needle rest

/-- Worker for `replaceSubstr`: replaces non-overlapping occurrences left to
right, with fuel bounded by the string length (the pattern is nonempty at
every call site). -/
def replaceAux (pat rep : Str) : Nat → Str → Str
  | 0, s => s
  | fuel + 1, s =>
    match s with
    | [] => []
    | c :: rest =>
      if pat ≠ [] ∧ pat.isPrefixOf s then rep ++ replaceAux pat rep fuel (s.drop pat.length)
      else c :: replaceAux pat rep fuel rest

/-- Python `s.replace(pat, rep)`. -/
def replaceSubstr (s pat rep : Str) : Str := replaceAux pat rep s.length s

/-- Python `s.split(c)[-1]`: the suffix after the last occurrence of `c`
(the whole string when `c` is absent). -/
def afterLast (c : Char) (s : Str) : Str :=
  (s.reverse.takeWhile (fun x => x ≠ c)).reverse

/-- Characters of the WHERE clause before the first occurrence of `c`,
when present. -/
def takeUntil (c : Char) : Str → Option Str
  | [] => none
  | x :: xs => if x = c then some [] else (takeUntil c xs).map (x :: ·)

/-! ### JSON values and Python exceptions -/

/-- JSON-like values, the shape of SPARQL endpoint responses. -/
inductive Json where
  | jnull
  | jbool (b : Bool)
  | jstr (s : Str)
  | jnum (n : Int)
  | jarr (elems : List Json)
  | jobj (fields : List (Str × Json))

/-- Python exceptions raised (or catchable) in the embedded code paths. -/
inductive PyExc where
  | valueError (msg : Str)
  | typeError (msg : Str)
  | lookupError (msg : Str)
  | keyError (msg : Str)
deriving DecidableEq

/-- Python `key in container` for the container shapes a response can take
(`in` on a non-iterable raises `TypeError`). -/
def pyContains (container : Json) (key : Str) : Except PyExc Bool :=
  match container with
  | .jobj kvs => .ok (dictLookup kvs key).isSome
  | .jstr s => .ok (subInStr key s)
  | .jarr xs =>
    .ok (xs.any (fun x => match x with | .jstr s => s = key | _ => false))
  | _ => .error (.typeError (chars "argument is not iterable"))

/-- Python `container[key]` with a string key. -/
def getItem (container : Json) (key : Str) : Except PyExc Json :=
  match container with
  | .jobj kvs =>
    match dictLookup kvs key with
    | some v => .ok v
    | none => .error (.keyError key)
  | _ => .error (.typeError (chars "indices must be integers"))

/-- Python `len(x)`. -/
def pyLen : Json → Except PyExc Nat
  | .jstr s => .ok s.length
  | .jarr xs => .ok xs.length
  | .jobj kvs => .ok kvs.length
  | _ => .error (.typeError (chars "object has no length"))

/-! ### `src/querif/nl2sparql/utils.py` -/

/-- Embeds `_check_response_is_empty`: nested `in` tests and lookups; `True`
exactly on the early return when `len(...) == 0`, `False` on the shared
fall-through; an exception raised by `in`, the lookup or `len` propagates. -/
def checkResponseIsEmpty (response : Json) : Except PyExc Bool :=
  match pyContains response (chars "results") with
  | .error e => .error e
  | .ok hasResults =>
    if hasResults then
      match getItem response (chars "results") with
      | .error e => .error e
      | .ok results =>
        match pyContains results (chars "bindings") with
        | .error e => .error e
        | .ok hasBindings =>
          if hasBindings then
            match getItem results (chars "bindings") with
            | .error e => .error e
            | .ok bindings =>
              match pyLen bindings with
              | .error e => .error e
              | .ok n => if n = 0 then .ok true else .ok false
          else .ok false
    else .ok false

/-- The `QueryType` enumeration. -/
inductive QueryType where
  | FACT_LOOKUP
  | CLASS_QUERY
  | AGGREGATION
  | COMPARISON
  | DEFINITION
  | RELATIONSHIP
  | SUPERLATIVE
  | BOOLEAN
deriving DecidableEq

/-- The `type_mapping` table of `_detect_query_type`. -/
def typeMapping : List (Str × QueryType) := [
  (chars "FACT_LOOKUP", QueryType.FACT_LOOKUP),
  (chars "CLASS_QUERY", QueryType.CLASS_QUERY),
  (chars "AGGREGATION", QueryType.AGGREGATION),
  (chars "COMPARISON", QueryType.COMPARISON),
  (chars "DEFINITION", QueryType.DEFINITION),
  (chars "RELATIONSHIP", QueryType.RELATIONSHIP),
  (chars "SUPERLATIVE", QueryType.SUPERLATIVE),
  (chars "BOOLEAN", QueryType.BOOLEAN)]

/-- Embeds `_detect_query_type`, parameterized by the classifier reply text
(the LLM call's message content). -/
def detectQueryType (llmReply : Str) : QueryType :=
  (dictLookup typeMapping (pyUpper (pyStrip llmReply))).getD QueryType.CLASS_QUERY

/-- Embeds `_verify_classes_exist`.  The verification query's outcome is a
parameter: `.error` models `execute_query` (or the row extraction) raising,
`.ok rows` gives the `r["class"]["value"]` strings of the result bindings. -/
def verifyClassesExist (classes : List Str) (execOutcome : Except Unit (List Str)) : List Str :=
  if classes = [] then []
  else
    match execOutcome with
    | .ok rows =>
      let existing := rows.map uriToPrefixed
      classes.filter (fun c => existing.contains c)
    | .error _ => classes

/-- Embeds `_get_target_classes`, parameterized by the LLM reply and the
verification query outcome. The `n_class` argument only shapes the prompt text
sent to the LLM; it does not appear in the reply processing. -/
def getTargetClasses (llmReply : Str) (execOutcome : Except Unit (List Str)) : List Str :=
  verifyClassesExist (splitWs (pyStrip llmReply)) execOutcome

/-- Embeds `_clean_sparql_response`. -/
def cleanSparqlResponse (response : Str) : Str :=
  pyStrip (replaceSubstr (replaceSubstr (replaceSubstr (pyStrip response)
    (chars "```sparql") []) (chars "```sql") []) (chars "```") [])

/-! ### `src/querif/nl2sparql/main.py` and the query generators -/

/-- One tag per generator function registered in the `handlers` dict. -/
inductive Handler where
  | factLookup
  | classQuery
  | aggregation
  | comparison
  | definition
  | relationship
  | superlative
  | boolean
deriving DecidableEq

/-- The `handlers` dict of `generate_and_execute_query`. -/
def handlersDict : List (QueryType × Handler) := [
  (QueryType.FACT_LOOKUP, Handler.factLookup),
  (QueryType.CLASS_QUERY, Handler.classQuery),
  (QueryType.AGGREGATION, Handler.aggregation),
  (QueryType.COMPARISON, Handler.comparison),
  (QueryType.DEFINITION, Handler.definition),
  (QueryType.RELATIONSHIP, Handler.relationship),
  (QueryType.SUPERLATIVE, Handler.superlative),
  (QueryType.BOOLEAN, Handler.boolean)]

/-- `handlers.get(query_type)`. -/
def handlersGet (qt : QueryType) : Option Handler := dictLookup handlersDict qt

/-- Whether the generator's `def` line accepts a `config_key` keyword.
`generate_definition_query(prompt)` and `generate_relationship_query(prompt)`
do not, although `main.py` calls every handler with
`handler(prompt=prompt, config_key=config_key)`. -/
def handlerAcceptsConfigKey : Handler → Bool
  | .definition => false
  | .relationship => false
  | _ => true

/-- Embeds `generate_and_execute_query`, parameterized by the classifier's
reply text and by the behavior `run` of each generator body. Calling a
generator whose signature lacks `config_key` raises `TypeError` before the
body runs. -/
def generateAndExecuteQuery (classifierReply : Str)
    (run : Handler → Except PyExc (Option Str × Option Json)) :
    Except PyExc (Option Str × Option Json) :=
  let qt := detectQueryType classifierReply
  match handlersGet qt with
  | some h =>
    if handlerAcceptsConfigKey h then run h
    else .error (.typeError (chars "got an unexpected keyword argument config_key"))
  | none => .ok (none, none)

/-- The f-string template of `generate_definition_query`. -/
def definitionQueryFor (e : Str) : Str :=
  chars "\n    SELECT ?label ?abstract ?type WHERE \x7b\n        " ++ e ++
  chars " rdfs:label ?label ;\n                      dbo:abstract ?abstract .\n        OPTIONAL \x7b " ++
  e ++
  chars " rdf:type ?type . \x7d\n        FILTER (lang(?label) = \"en\" && lang(?abstract) = \"en\")\n    \x7d LIMIT 1\n    "

/-- Embeds `generate_definition_query` (`queries/definition.py`), with the
entity-resolution outcome (surface form to prefixed URI, in service order) and
the one `execute_query` outcome as parameters. No LLM call appears in the
source of this generator. -/
def generateDefinitionQuery (entOutcome : Except PyExc (List (Str × Str)))
    (execOutcome : Except PyExc Json) : Except PyExc (Option Str × Option Json) := do
  let entities ← entOutcome
  match entities with
  | [] => return (none, none)
  | e :: _ =>
    let query := definitionQueryFor e.2
    let results ← execOutcome
    return (some query, some results)

/-- Embeds `fact_lookup_query` (`queries/fact_lookup.py`): entity resolution,
the main entity's property list, the LLM call (client creation included), and
the final execute-and-check block, with each external outcome a parameter. -/
def factLookupQuery (entOutcome : Except PyExc (List (Str × Str)))
    (propsOutcome : Except PyExc (List (Str × Str)))
    (llmOutcome : Except PyExc Str)
    (execOutcome : Except PyExc Json) : Except PyExc (Option Str × Option Json) := do
  let entities ← entOutcome
  if entities = [] then
    throw (PyExc.valueError (chars "No entities found in the prompt for fact lookup query."))
  let props ← propsOutcome
  if props = [] then
    throw (PyExc.valueError (chars "No properties found for the main entity in fact lookup query."))
  let reply ← llmOutcome
  let query := cleanSparqlResponse reply
  match execOutcome with
  | .ok results =>
    match checkResponseIsEmpty results with
    | .ok false => return (some query, some results)
    | .ok true => return (none, none)
    | .error _ => return (none, none)
  | .error _ => return (none, none)

/-- The raised exception, when there is one, is a `LookupError`. -/
def raisedLookupError : Except PyExc (Option Str × Option Json) → Bool
  | .error (.lookupError _) => true
  | _ => false

/-- C5 counterexample: with `n = 1` (the `n_class` the AGGREGATION and
SUPERLATIVE call sites pass), an LLM reply of two whitespace-separated tokens
makes the resolver return 2 classes on the verification-failure path, and
still 2 on the success path when both verify: the reply is never truncated
to `n`. -/
theorem getTargetClasses_exceeds_requested_n :
    (getTargetClasses (chars "dbo:City dbo:Person") (Except.error ())).length = 2 ∧
    ¬ (getTargetClasses (chars "dbo:City dbo:Person") (Except.error ())).length ≤ 1 ∧
    (getTargetClasses (chars "dbo:City dbo:Person")
      (Except.ok [chars "http://dbpedia.org/ontology/City",
                  chars "http://dbpedia.org/ontology/Person"])).length = 2 := by
  refine ⟨by decide, by decide, by decide⟩

/-- C5 amended: the resolver returns a subsequence of the whitespace-split
LLM reply, in original order (verification only filters, and on verification
failure the full token list is returned); the length is bounded by the reply's
token count, not by `n`. -/
theorem getTargetClasses_sublist_of_reply (llmReply : Str)
    (execOutcome : Except Unit (List Str)) :
    (getTargetClasses llmReply execOutcome).Sublist (splitWs (pyStrip llmReply)) := by
  unfold getTargetClasses verifyClassesExist
  by_cases h : splitWs (pyStrip llmReply) = []
  · simp [h]
  · simp only [h, if_false]
    cases execOutcome with
    | ok rows => exact List.filter_sublist _
    | error e => exact List.Sublist.refl _

/-- C9: the handler table registers a generator for all eight QueryType
values and the classifier's table lookup defaults to CLASS_QUERY, so the
dispatch of `generate_and_execute_query` always finds a handler: its result
comes from invoking that handler (or from the keyword-argument TypeError of
the call itself), never from the no-handler `(None, None)` branch. -/
theorem handlers_cover_all_query_types :
    (∀ qt : QueryType, (handlersGet qt).isSome = true) ∧
    (∀ llmReply : Str, handlersGet (detectQueryType llmReply) ≠ none) ∧
    (∀ (llmReply : Str) (run : Handler → Except PyExc (Option Str × Option Json)),
      ∃ h, handlersGet (detectQueryType llmReply) = some h ∧
        generateAndExecuteQuery llmReply run =
          (if handlerAcceptsConfigKey h then run h
           else Except.error (PyExc.typeError
             (chars "got an unexpected keyword argument config_key")))) := by
  have h1 : ∀ qt : QueryType, ∃ h, handlersGet qt = some h := by
    intro qt
    cases qt <;> exact ⟨_, rfl⟩
  refine ⟨?_, ?_, ?_⟩
  · intro qt
    obtain ⟨h, hh⟩ := h1 qt
    rw [hh]; rfl
  · intro r
    obtain ⟨h, hh⟩ := h1 (detectQueryType r)
    rw [hh]; simp
  · intro r run
    obtain ⟨h, hh⟩ := h1 (detectQueryType r)
    exact ⟨h, hh, by simp only [generateAndExecuteQuery, hh]⟩

/-- C2: for every classifier reply routed to DEFINITION, the dispatcher's
call `handler(prompt=prompt, config_key=config_key)` raises `TypeError`
because `generate_definition_query(prompt)` does not accept `config_key`:
the call never returns `(None, None)` and never reaches entity resolution. -/
theorem dispatch_to_definition_raises_typeError (llmReply : Str)
    (hdef : detectQueryType llmReply = QueryType.DEFINITION)
    (run : Handler → Except PyExc (Option Str × Option Json)) :
    generateAndExecuteQuery llmReply run =
      Except.error (PyExc.typeError
        (chars "got an unexpected keyword argument config_key")) := by
  simp only [generateAndExecuteQuery, hdef]
  rfl

/-- Witness: the reply "DEFINITION" classifies to DEFINITION and the dispatch
raises the keyword-argument TypeError for any generator behavior. -/
theorem dispatch_to_definition_raises_typeError_witness :
    generateAndExecuteQuery (chars "DEFINITION") (fun _ => Except.ok (none, none)) =
      Except.error (PyExc.typeError
        (chars "got an unexpected keyword argument config_key")) :=
  dispatch_to_definition_raises_typeError (chars "DEFINITION") (by decide) _

/-- The intent the spec describes does hold of the generator body itself:
called with zero resolved entities, `generate_definition_query` returns
`(None, None)` for every SPARQL-execution behavior (so no execution, and the
source contains no LLM call at all). -/
theorem generateDefinitionQuery_no_entities (execOutcome : Except PyExc Json) :
    generateDefinitionQuery (Except.ok []) execOutcome = Except.ok (none, none) := rfl

/-- C4 counterexample: with entity resolution returning zero entities,
`fact_lookup_query` raises `ValueError`, which is not a `LookupError`. -/
theorem factLookup_no_entities_raises_valueError :
    factLookupQuery (Except.ok []) (Except.ok []) (Except.ok []) (Except.ok Json.jnull) =
      Except.error (PyExc.valueError
        (chars "No entities found in the prompt for fact lookup query.")) ∧
    raisedLookupError
      (factLookupQuery (Except.ok []) (Except.ok []) (Except.ok []) (Except.ok Json.jnull)) =
      false :=
  ⟨rfl, rfl⟩

/-- C4 amended: the FACT_LOOKUP generator raises a `ValueError` (a hard
error, not the `(None, None)` soft failure) whenever entity resolution yields
no entities, or the resolved main entity has an empty property list. -/
theorem factLookup_raises_valueError
    (entOutcome propsOutcome : Except PyExc (List (Str × Str)))
    (llmOutcome : Except PyExc Str) (execOutcome : Except PyExc Json)
    (h : entOutcome = Except.ok [] ∨
         ∃ e es, entOutcome = Except.ok (e :: es) ∧ propsOutcome = Except.ok []) :
    ∃ msg, factLookupQuery entOutcome propsOutcome llmOutcome execOutcome =
      Except.error (PyExc.valueError msg) := by
  rcases h with h1 | ⟨e, es, h1, h2⟩
  · subst h1; exact ⟨_, rfl⟩
  · subst h1; subst h2; exact ⟨_, rfl⟩

/-- Witness: one entity resolved but an empty property list raises
`ValueError`. -/
theorem factLookup_raises_valueError_witness :
    ∃ msg, factLookupQuery (Except.ok [(chars "Obama", chars "dbr:Barack_Obama")])
        (Except.ok []) (Except.ok (chars "q")) (Except.ok Json.jnull) =
      Except.error (PyExc.valueError msg) :=
  factLookup_raises_valueError _ _ _ _ (Or.inr ⟨_, _, rfl, rfl⟩)

/-- A response in SPARQL-results-JSON shape (the documented input of
`_check_response_is_empty`): a dict whose `results` member, when present, is
a dict whose `bindings` member, when present, is a list. -/
def WFResponse (response : Json) : Prop :=
  ∃ kvs, response = Json.jobj kvs ∧
    (dictLookup kvs (chars "results") = none ∨
     ∃ rkvs, dictLookup kvs (chars "results") = some (Json.jobj rkvs) ∧
       (dictLookup rkvs (chars "bindings") = none ∨
        ∃ rows, dictLookup rkvs (chars "bindings") = some (Json.jarr rows)))

/-- C10: on SPARQL-results-shaped responses, `_check_response_is_empty`
returns True exactly when the response carries a `results` member with an
empty `bindings` list; an ASK response and a dict without `results` are
reported non-empty, and `fact_lookup_query` accordingly accepts the ASK
response `{boolean: false}` as a successful result. -/
theorem checkResponseIsEmpty_iff (response : Json) (hwf : WFResponse response) :
    (checkResponseIsEmpty response = Except.ok true ↔
      ∃ kvs rkvs, response = Json.jobj kvs ∧
        dictLookup kvs (chars "results") = some (Json.jobj rkvs) ∧
        dictLookup rkvs (chars "bindings") = some (Json.jarr [])) ∧
    checkResponseIsEmpty (Json.jobj [(chars "boolean", Json.jbool false)]) =
      Except.ok false ∧
    factLookupQuery (Except.ok [(chars "X", chars "dbr:X")])
        (Except.ok [(chars "dbo:p", chars "v")]) (Except.ok (chars "SELECT"))
        (Except.ok (Json.jobj [(chars "boolean", Json.jbool false)])) =
      Except.ok (some (chars "SELECT"),
        some (Json.jobj [(chars "boolean", Json.jbool false)])) := by
  refine ⟨?_, rfl, rfl⟩
  obtain ⟨kvs, hresp, hcase⟩ := hwf
  subst hresp
  rcases hcase with hA | ⟨rkvs, hB, hcase2⟩
  · constructor
    · intro h
      simp only [checkResponseIsEmpty, pyContains, hA, Option.isSome_none,
        Bool.false_eq_true, if_false] at h
      exact absurd (Except.ok.inj h) (by decide)
    · rintro ⟨kvs', rkvs, heq, hlk, _⟩
      obtain rfl : kvs = kvs' := by injection heq
      rw [hA] at hlk
      exact absurd hlk (by simp)
  · rcases hcase2 with hC | ⟨rows, hC⟩
    · constructor
      · intro h
        simp only [checkResponseIsEmpty, pyContains, getItem, hB, hC,
          Option.isSome_some, Option.isSome_none, if_true, Bool.false_eq_true,
          if_false] at h
        exact absurd (Except.ok.inj h) (by decide)
      · rintro ⟨kvs', rkvs', heq, hlk, hlk2⟩
        obtain rfl : kvs = kvs' := by injection heq
        rw [hB] at hlk
        obtain rfl : rkvs = rkvs' := by
          have := Option.some.inj hlk
          injection this
        rw [hC] at hlk2
        exact absurd hlk2 (by simp)
    · have hred : checkResponseIsEmpty (Json.jobj kvs) =
          if rows.length = 0 then Except.ok true else Except.ok false := by
        simp only [checkResponseIsEmpty, pyContains, getItem, pyLen, hB, hC,
          Option.isSome_some, if_true]
      constructor
      · intro h
        rw [hred] at h
        by_cases hr : rows.length = 0
        · have hrows : rows = [] := List.length_eq_zero.mp hr
          exact ⟨kvs, rkvs, rfl, hB, hrows ▸ hC⟩
        · simp [hr] at h
      · rintro ⟨kvs', rkvs', heq, hlk, hlk2⟩
        obtain rfl : kvs = kvs' := by injection heq
        rw [hB] at hlk
        obtain rfl : rkvs = rkvs' := by
          have := Option.some.inj hlk
          injection this
        rw [hC] at hlk2
        have hrows : rows = [] := by
          have := Option.some.inj hlk2
          injection this
        rw [hred, hrows]
        simp

/-- Witness: the canonical empty response is reported empty via the theorem
applied at a concrete well-formed response. -/
theorem checkResponseIsEmpty_iff_witness :
    checkResponseIsEmpty
        (Json.jobj [(chars "results", Json.jobj [(chars "bindings", Json.jarr [])])]) =
        Except.ok true ↔
      ∃ kvs rkvs,
        Json.jobj [(chars "results", Json.jobj [(chars "bindings", Json.jarr [])])] =
          Json.jobj kvs ∧
        dictLookup kvs (chars "results") = some (Json.jobj rkvs) ∧
        dictLookup rkvs (chars "bindings") = some (Json.jarr []) :=
  (checkResponseIsEmpty_iff
    (Json.jobj [(chars "results", Json.jobj [(chars "bindings", Json.jarr [])])])
    ⟨[(chars "results", Json.jobj [(chars "bindings", Json.jarr [])])], rfl,
      Or.inr ⟨[(chars "bindings", Json.jarr [])], rfl, Or.inr ⟨[], rfl⟩⟩⟩).1

/-! ### `src/querif/rdf_graph_builder.py` — the pattern scanner

The source extracts structure with `re` patterns.  Each pattern below is
implemented as a leftmost, non-overlapping scanner with the exact
backtracking behavior of the Python regex (all character classes involved
are pairwise disjoint at the decision points, so matching is deterministic
once the start position is fixed). -/

/-- Python regex `\w` (ASCII range, the only one the inputs use). -/
def isWordChar (c : Char) : Bool := c.isAlphanum || c = '_'

/-- The class `[a-zA-Z_:]` used for predicate and class tokens. -/
def isClassChar (c : Char) : Bool := c.isAlpha || c = '_' || c = ':'

/-- Case-insensitive `startswith` (for `re.IGNORECASE` literals). -/
def ciStartsWith : Str → Str → Bool
  | [], _ => true
  | _ :: _, [] => false
  | p :: ps, s :: ss => (p.toLower = s.toLower) && ciStartsWith ps ss

/-- One attempt of `WHERE\s*\{(.*?)\}` (DOTALL, IGNORECASE) at the current
position: literal WHERE, optional whitespace, a brace, then the shortest run
up to the next closing brace. -/
def whereAttempt (s : Str) : Option Str :=
  if ciStartsWith (chars "where") s then
    match (s.drop 5).dropWhile pyIsSpace with
    | '{' :: r => takeUntil '}' r
    | _ => none
  else none

/-- `re.search` of the WHERE pattern: leftmost successful attempt. -/
def findWhere : Str → Option Str
  | [] => none
  | c :: rest =>
    match whereAttempt (c :: rest) with
    | some w => some w
    | none => findWhere rest

/-- Tail of the type pattern after the alternation: `\s+([a-zA-Z_:]+)`. -/
def typeTail (varTok predTok r : Str) : Option ((Str × Str × Str) × Str) :=
  let sp2 := r.takeWhile pyIsSpace
  if sp2 = [] then none
  else
    let r2 := r.drop sp2.length
    let cls := r2.takeWhile isClassChar
    if cls = [] then none
    else some ((varTok, predTok, cls), r2.drop cls.length)

/-- One attempt of `(\?\w+)\s+(rdf:type|a)\s+([a-zA-Z_:]+)` (IGNORECASE),
trying the alternation branches in order. -/
def typeAttempt (s : Str) : Option ((Str × Str × Str) × Str) :=
  match s with
  | '?' :: rest =>
    let w := rest.takeWhile isWordChar
    if w = [] then none
    else
      let r1 := rest.drop w.length
      let sp1 := r1.takeWhile pyIsSpace
      if sp1 = [] then none
      else
        let r2 := r1.drop sp1.length
        match (if ciStartsWith (chars "rdf:type") r2 then
                 typeTail ('?' :: w) (r2.take 8) (r2.drop 8)
               else none) with
        | some res => some res
        | none =>
          match r2 with
          | c :: r3 => if c.toLower = 'a' then typeTail ('?' :: w) [c] r3 else none
          | [] => none
  | _ => none

/-- `re.findall` driver for the type pattern (fuel bounds the scan). -/
def typeFindallAux : Nat → Str → List (Str × Str × Str)
  | 0, _ => []
  | _, [] => []
  | fuel + 1, c :: rest =>
    match typeAttempt (c :: rest) with
    | some (g, rem) => g :: typeFindallAux fuel rem
    | none => typeFindallAux fuel rest

/-- All non-overlapping matches of the type pattern, left to right. -/
def typeFindall (s : Str) : List (Str × Str × Str) := typeFindallAux s.length s

/-- Subject alternation `(\?\w+|<[^>]+>|[a-zA-Z_:]+)`. -/
def subjAttempt (s : Str) : Option (Str × Str) :=
  match s with
  | '?' :: rest =>
    let w := rest.takeWhile isWordChar
    if w = [] then none else some ('?' :: w, rest.drop w.length)
  | '<' :: rest =>
    let body := rest.takeWhile (fun c => c ≠ '>')
    if body = [] then none
    else
      match rest.drop body.length with
      | '>' :: r => some ('<' :: body ++ ['>'], r)
      | _ => none
  | _ =>
    let cls := s.takeWhile isClassChar
    if cls = [] then none else some (cls, s.drop cls.length)

/-- Object alternation `(\?\w+|<[^>]+>|"[^"]*")`. -/
def objAttempt (s : Str) : Option (Str × Str) :=
  match s with
  | '?' :: rest =>
    let w := rest.takeWhile isWordChar
    if w = [] then none else some ('?' :: w, rest.drop w.length)
  | '<' :: rest =>
    let body := rest.takeWhile (fun c => c ≠ '>')
    if body = [] then none
    else
      match rest.drop body.length with
      | '>' :: r => some ('<' :: body ++ ['>'], r)
      | _ => none
  | '"' :: rest =>
    let body := rest.takeWhile (fun c => c ≠ '"')
    (match rest.drop body.length with
     | '"' :: r => some ('"' :: body ++ ['"'], r)
     | _ => none)
  | _ => none

/-- One attempt of the property pattern
`(\?\w+|<[^>]+>|[a-zA-Z_:]+)\s+([a-zA-Z_:]+)\s+(\?\w+|<[^>]+>|"[^"]*")`. -/
def propAttempt (s : Str) : Option ((Str × Str × Str) × Str) :=
  match subjAttempt s with
  | none => none
  | some (subj, r1) =>
    let sp1 := r1.takeWhile pyIsSpace
    if sp1 = [] then none
    else
      let r2 := r1.drop sp1.length
      let pred := r2.takeWhile isClassChar
      if pred = [] then none
      else
        let r3 := r2.drop pred.length
        let sp2 := r3.takeWhile pyIsSpace
        if sp2 = [] then none
        else
          match objAttempt (r3.drop sp2.length) with
          | some (obj, r5) => some ((subj, pred, obj), r5)
          | none => none

/-- `re.findall` driver for the property pattern. -/
def propFindallAux : Nat → Str → List (Str × Str × Str)
  | 0, _ => []
  | _, [] => []
  | fuel + 1, c :: rest =>
    match propAttempt (c :: rest) with
    | some (g, rem) => g :: propFindallAux fuel rem
    | none => propFindallAux fuel rest

/-- All non-overlapping matches of the property pattern, left to right. -/
def propFindall (s : Str) : List (Str × Str × Str) := propFindallAux s.length s

/-- One attempt of `(dbr:[A-Za-z_0-9]+)` (case-sensitive). -/
def dbrAttempt (s : Str) : Option Str :=
  if (chars "dbr:").isPrefixOf s then
    let name := (s.drop 4).takeWhile (fun c => c.isAlphanum || c = '_')
    if name = [] then none else some (chars "dbr:" ++ name)
  else none

/-- First match of the `dbr:` resource pattern over the whole query. -/
def findDbr : Str → Option Str
  | [] => none
  | c :: rest =>
    match dbrAttempt (c :: rest) with
    | some m => some m
    | none => findDbr rest

/-- One attempt of `<http://dbpedia\.org/resource/([^>]+)>`, returning the
captured group. -/
def angleDbrAttempt (s : Str) : Option Str :=
  match s with
  | '<' :: rest =>
    if (chars "http://dbpedia.org/resource/").isPrefixOf rest then
      let rest2 := rest.drop (chars "http://dbpedia.org/resource/").length
      let body := rest2.takeWhile (fun c => c ≠ '>')
      if body = [] then none
      else
        match rest2.drop body.length with
        | '>' :: _ => some body
        | _ => none
    else none
  | _ => none

/-- `re.search` of the angle-bracketed dbpedia resource pattern. -/
def findAngleDbr : Str → Option Str
  | [] => none
  | c :: rest =>
    match angleDbrAttempt (c :: rest) with
    | some m => some m
    | none => findAngleDbr rest

/-- The result dict of `parse_sparql_query` (the unused `filters` list and the
dead local `triples` of line 55 are omitted: neither affects any output). -/
structure ParsedQuery where
  mainEntity : Option Str
  classes : List (Str × Str)
  properties : List (Str × Str × Str)
deriving DecidableEq

/-- Embeds `RDFGraphBuilder.parse_sparql_query`: on a missing WHERE block the
early return keeps every field empty (the `dbr:` scan is never reached);
otherwise the type matches give `classes` as (variable, class) pairs, the
property matches minus the `rdf:type`/`a` predicates give `properties`, and
the first `dbr:` match over the whole query gives `main_entity`. -/
def parseSparqlQuery (q : Str) : ParsedQuery :=
  match findWhere q with
  | none => ⟨none, [], []⟩
  | some w =>
    let classes := (typeFindall w).map (fun g => (g.1, g.2.2))
    let properties := (propFindall w).filter
      (fun g => !((g.2.1 == chars "rdf:type") || (g.2.1 == chars "a")))
    ⟨findDbr q, classes, properties⟩

/-- One entry of the builder's `entities` dict. -/
structure EntityInfo where
  etype : Str
  label : Str
  uri : Str
deriving DecidableEq

/-- The mutable state of an `RDFGraphBuilder`: the `entities` dict (insertion
ordered) and the `properties` edge list.  The networkx graph mirrors them and
carries no extra state the claims mention. -/
structure Builder where
  entities : List (Str × EntityInfo)
  properties : List (Str × Str × Str)
deriving DecidableEq

/-- A freshly constructed builder. -/
def emptyBuilder : Builder := ⟨[], []⟩

/-- Python dict assignment: an existing key keeps its position and gets the
new value, a new key is appended. -/
def dictSet {β : Type} : List (Str × β) → Str → β → List (Str × β)
  | [], key, v => [(key, v)]
  | (k, w) :: rest, key, v =>
    if k = key then (k, v) :: rest else (k, w) :: dictSet rest key v

/-- Embeds `add_entity` (uri defaults to the entity id). -/
def addEntity (b : Builder) (entityId etype label : Str) (uri : Option Str) : Builder :=
  { b with entities := dictSet b.entities entityId ⟨etype, label, uri.getD entityId⟩ }

/-- Embeds `add_property`: append the triple to the edge list. -/
def addProperty (b : Builder) (subject predicate obj : Str) : Builder :=
  { b with properties := b.properties ++ [(subject, predicate, obj)] }

/-- One binding cell `{type: ..., value: ...}` (either key may be absent,
read with `.get`). -/
structure BindingVal where
  vtype : Option Str
  value : Option Str
deriving DecidableEq

/-- One result row: variable name to binding cell, in JSON order. -/
abbrev Row := List (Str × BindingVal)

/-- `binding[k]["value"]` at the call sites where `k in binding` was already
checked (a missing `value` key would raise in Python; it never occurs in a
SPARQL result row). -/
def rowValue (row : Row) (k : Str) : Str :=
  match dictLookup row k with
  | some bv => bv.value.getD []
  | none => []

/-- Decimal digits of a row index. -/
def natChars (n : Nat) : Str := (Nat.repr n).data

/-- The body of the inner loop of `build_from_results` for one variable of
one row: create resource or literal nodes and the heuristic edges. -/
def processVar (q : Str) (mainEntity mainClass : Option Str) (idx : Nat)
    (row : Row) (b : Builder) (varName : Str) (bv : BindingVal) : Builder :=
  match bv.value with
  | none => b
  | some value =>
    if value = [] then b
    else if bv.vtype = some (chars "uri") then
      let rid0 := uriToPrefixed value
      let resourceId := if rid0 = value then afterLast '/' value else rid0
      let label := (afterLast ':' resourceId).map (fun c => if c = '_' then ' ' else c)
      if [chars "album", chars "movie", chars "film", chars "book",
          chars "song"].contains varName then
        let b1 := addEntity b resourceId (chars "resource") label (some value)
        let b2 :=
          match mainClass with
          | some mc => addProperty b1 resourceId (chars "rdf:type") mc
          | none => b1
        match mainEntity with
        | some me =>
          if subInStr (chars "artist") (pyLower q) then
            addProperty b2 resourceId (chars "dbo:artist") me
          else if subInStr (chars "director") (pyLower q) then
            addProperty b2 resourceId (chars "dbo:director") me
          else if subInStr (chars "author") (pyLower q) then
            addProperty b2 resourceId (chars "dbo:author") me
          else b2
        | none => b2
      else
        addEntity b resourceId (chars "resource") label (some value)
    else if bv.vtype = some (chars "literal") then
      let literalId := chars "literal_" ++ natChars idx ++ chars "_" ++ varName
      let display := if value.length > 50 then value.take 50 ++ chars "..." else value
      let b1 := addEntity b literalId (chars "literal") display none
      if (dictLookup row (chars "album")).isSome then
        let albumUri := rowValue row (chars "album")
        let aid0 := uriToPrefixed albumUri
        let albumId := if aid0 = albumUri then afterLast '/' albumUri else aid0
        if [chars "title", chars "label", chars "name"].contains varName then
          addProperty b1 albumId (chars "rdfs:" ++ varName) literalId
        else b1
      else if (dictLookup row (chars "song")).isSome then
        let songUri := rowValue row (chars "song")
        let sid0 := uriToPrefixed songUri
        let songId := if sid0 = songUri then afterLast '/' songUri else sid0
        if [chars "title", chars "label", chars "name"].contains varName then
          addProperty b1 songId (chars "rdfs:" ++ varName) literalId
        else b1
      else if (dictLookup row (chars "movie")).isSome ||
              (dictLookup row (chars "film")).isSome then
        let resourceKey :=
          if (dictLookup row (chars "movie")).isSome then chars "movie" else chars "film"
        let resourceUri := rowValue row resourceKey
        let rid1 := uriToPrefixed resourceUri
        let resourceId := if rid1 = resourceUri then afterLast '/' resourceUri else rid1
        if [chars "title", chars "label", chars "name"].contains varName then
          addProperty b1 resourceId (chars "rdfs:" ++ varName) literalId
        else b1
      else b1
    else b

/-- One row of the result loop: fold the row's variables in order. -/
def processRow (q : Str) (mainEntity mainClass : Option Str) (idx : Nat)
    (row : Row) (b : Builder) : Builder :=
  row.foldl (fun acc kv => processVar q mainEntity mainClass idx row acc kv.1 kv.2) b

/-- The `enumerate(bindings)` loop. -/
def buildRows (q : Str) (mainEntity mainClass : Option Str) :
    Nat → List Row → Builder → Builder
  | _, [], b => b
  | idx, r :: rs, b =>
    buildRows q mainEntity mainClass (idx + 1) rs (processRow q mainEntity mainClass idx r b)

/-- Embeds `RDFGraphBuilder.build_from_results`.  The `results` argument is
`none` when the dict lacks the `results.bindings` shape (the guard logs and
returns), else `some rows` with the bindings list. -/
def buildFromResults (b : Builder) (q : Str) (results : Option (List Row))
    (maxResults : Nat) : Builder :=
  match results with
  | none => b
  | some rows =>
    let bindings := rows.take maxResults
    let parsed := parseSparqlQuery q
    let mainEntity :=
      match parsed.mainEntity with
      | some e => some e
      | none => (findAngleDbr q).map (fun g => chars "dbr:" ++ g)
    let mainClass := (parsed.classes.head?).map (fun c => c.2)
    let b1 :=
      match mainEntity with
      | some me =>
        let entityName := pyStrip (replaceSubstr
          ((afterLast ':' me).map (fun c => if c = '_' then ' ' else c))
          (chars "(musician)") [])
        addEntity b me (chars "resource") entityName (some me)
      | none => b
    let b2 :=
      match mainClass with
      | some mc => addEntity b1 mc (chars "class") (afterLast ':' mc) none
      | none => b1
    buildRows q mainEntity mainClass 0 bindings b2

/-- C6 counterexample: on a WHERE block holding `?s a dbo:Song . ?s
rdfs:label ?l`, the parser records exactly ONE triple (not at least two), and
no recorded triple carries an `rdf:type` predicate: the `a`-typed pattern
reaches only the `classes` list (with the predicate dropped), because the
properties extraction filters out `rdf:type`/`a` predicates and the object
alternation of the property pattern cannot match the bare class token. -/
theorem parse_type_and_label_counterexample :
    (parseSparqlQuery
      (chars "SELECT ?s WHERE \x7b ?s a dbo:Song . ?s rdfs:label ?l \x7d")).properties.length
      = 1 ∧
    ¬ 2 ≤ (parseSparqlQuery
      (chars "SELECT ?s WHERE \x7b ?s a dbo:Song . ?s rdfs:label ?l \x7d")).properties.length ∧
    (parseSparqlQuery
      (chars "SELECT ?s WHERE \x7b ?s a dbo:Song . ?s rdfs:label ?l \x7d")).properties.all
      (fun g => !(g.2.1 == chars "rdf:type")) = true := by
  refine ⟨by decide, by decide, by decide⟩

/-- C6 amended: parsing a query whose WHERE block contains `?s a dbo:Song .
?s rdfs:label ?l` yields exactly one classes entry (variable `?s`, class
`dbo:Song`) and exactly one recorded triple, `(?s, rdfs:label, ?l)`;
`rdf:type`/`a` patterns appear only in the classes list and are excluded from
the recorded triples. -/
theorem parse_type_and_label :
    parseSparqlQuery
      (chars "SELECT ?s WHERE \x7b ?s a dbo:Song . ?s rdfs:label ?l \x7d") =
    ⟨none, [(chars "?s", chars "dbo:Song")],
      [(chars "?s", chars "rdfs:label", chars "?l")]⟩ := by decide

/-- C3 counterexample: on the single-row result binding `song` to dbr:X and
`songName` to the literal, the builder records NO edge at all — the literal
linking heuristic requires the literal's variable to be named title, label or
name, and `songName` is none of these — so the claimed edge list
`[(dbr:X, rdfs:label, literal_0_songName)]` is not produced. -/
theorem build_song_label_counterexample :
    (buildFromResults emptyBuilder
      (chars "SELECT ?song ?songName WHERE \x7b ?song rdfs:label ?songName \x7d")
      (some [[(chars "song",
               ⟨some (chars "uri"), some (chars "http://dbpedia.org/resource/X")⟩),
              (chars "songName",
               ⟨some (chars "literal"), some (chars "X Song")⟩)]]) 20).properties = [] ∧
    (buildFromResults emptyBuilder
      (chars "SELECT ?song ?songName WHERE \x7b ?song rdfs:label ?songName \x7d")
      (some [[(chars "song",
               ⟨some (chars "uri"), some (chars "http://dbpedia.org/resource/X")⟩),
              (chars "songName",
               ⟨some (chars "literal"), some (chars "X Song")⟩)]]) 20).properties ≠
      [(chars "dbr:X", chars "rdfs:label", chars "literal_0_songName")] := by
  refine ⟨by decide, by decide⟩

/-- C3 amended: the build produces exactly the two nodes dbr:X and
literal_0_songName and zero edges (the `rdfs:label` edge would require the
literal variable to be named title/label/name). -/
theorem build_song_label_nodes :
    (buildFromResults emptyBuilder
      (chars "SELECT ?song ?songName WHERE \x7b ?song rdfs:label ?songName \x7d")
      (some [[(chars "song",
               ⟨some (chars "uri"), some (chars "http://dbpedia.org/resource/X")⟩),
              (chars "songName",
               ⟨some (chars "literal"), some (chars "X Song")⟩)]]) 20).entities.map Prod.fst
      = [chars "dbr:X", chars "literal_0_songName"] ∧
    (buildFromResults emptyBuilder
      (chars "SELECT ?song ?songName WHERE \x7b ?song rdfs:label ?songName \x7d")
      (some [[(chars "song",
               ⟨some (chars "uri"), some (chars "http://dbpedia.org/resource/X")⟩),
              (chars "songName",
               ⟨some (chars "literal"), some (chars "X Song")⟩)]]) 20).properties.length = 0 := by
  refine ⟨by decide, by decide⟩

/-- C1 counterexample: a result set with one binding row whose variable does
not appear in the query's triple patterns ends the call with an empty edge
list: `build_from_results` has no fallback that synthesizes edges. -/
theorem build_can_end_edgeless_counterexample :
    1 ≤ [[(chars "x", BindingVal.mk (some (chars "uri"))
            (some (chars "http://example.org/A")))]].length ∧
    (buildFromResults emptyBuilder (chars "SELECT ?x WHERE \x7b ?y dbo:foo ?z \x7d")
      (some [[(chars "x", BindingVal.mk (some (chars "uri"))
                (some (chars "http://example.org/A")))]]) 20).properties = [] := by
  refine ⟨by decide, by decide⟩

/-- C1 amended: the builder may end a `build_from_results` call with an empty
edge list even when the results dict contains a binding row; edges are
recorded only by the album/movie/film/book/song and title/label/name
heuristics, and no fallback synthesizes edges from the first row. -/
theorem build_no_fallback :
    1 ≤ [[(chars "a", BindingVal.mk (some (chars "literal")) (some (chars "Hello")))]].length ∧
    (buildFromResults emptyBuilder (chars "SELECT ?a WHERE \x7b ?b rdfs:label ?c \x7d")
      (some [[(chars "a", BindingVal.mk (some (chars "literal"))
                (some (chars "Hello")))]]) 20).properties = [] ∧
    (buildFromResults emptyBuilder (chars "SELECT ?a WHERE \x7b ?b rdfs:label ?c \x7d")
      (some [[(chars "a", BindingVal.mk (some (chars "literal"))
                (some (chars "Hello")))]]) 20).entities.map Prod.fst
      = [chars "literal_0_a"] := by
  refine ⟨by decide, by decide, by decide⟩
